import Mathlib

/-!
Verification of the mood-analysis and crisis-risk pipeline of the
decentralized mental-health network, together with the `UserRegistry`
contract and the frontend commitment utilities.

The backend Python services (`CrisisDetector`, `MoodAnalyzer`, the
community aggregator) are declared in the repository (backend README,
frontend callers in `MoodTracker.tsx` / `Dashboard.tsx`) but their
implementation files are not part of the source tree; those operations
are modelled here from the specification.  The Solidity contract
`UserRegistry.sol` and the TypeScript utilities in
`frontend/src/utils/storage.ts` and `frontend/src/utils/constants.ts`
are embedded directly from their source.
-/

namespace MentalHealth

/-- Risk tiers of the crisis detector, ordered MINIMAL < LOW < MEDIUM < HIGH
(`RISK_LEVELS` in `frontend/src/utils/constants.ts`; spec glossary). -/
inductive RiskLevel where
  | MINIMAL
  | LOW
  | MEDIUM
  | HIGH
deriving DecidableEq, Repr

/-- Numeric rank of a risk tier, used to state "at least" / monotonicity. -/
def RiskLevel.rank : RiskLevel → Nat
  | .MINIMAL => 0
  | .LOW => 1
  | .MEDIUM => 2
  | .HIGH => 3

/-- Modelled from the spec: the crisis-indicator keyword categories of the
missing backend `CrisisDetector` ("self-harm, hopelessness, substance
references", spec 4.1). -/
inductive KeywordCategory where
  | selfHarm
  | hopelessness
  | substance
deriving DecidableEq, Repr

/-- Modelled from the spec: one configured crisis-indicator keyword of the
missing backend `CrisisDetector` (spec 4.1, spec 9: keyword lists are
immutable configuration). -/
structure CrisisKeyword where
  phrase : String
  category : KeywordCategory
deriving DecidableEq, Repr

/-- Modelled from the spec: the fixed configured keyword list of the missing
backend `CrisisDetector` (spec 4.1, spec 9).  The self-harm entries are the
severe category; spec 8 requires that the phrase "end it all" at score 4
already yields HIGH. -/
def crisisKeywords : List CrisisKeyword :=
  [ ⟨"end it all", .selfHarm⟩
  , ⟨"kill myself", .selfHarm⟩
  , ⟨"suicide", .selfHarm⟩
  , ⟨"hurt myself", .selfHarm⟩
  , ⟨"want to die", .selfHarm⟩
  , ⟨"hopeless", .hopelessness⟩
  , ⟨"worthless", .hopelessness⟩
  , ⟨"no point", .hopelessness⟩
  , ⟨"give up", .hopelessness⟩
  , ⟨"overdose", .substance⟩ ]

/-- Modelled from the spec: lexical matching of the missing backend
`CrisisDetector` — the configured keywords whose phrase occurs in the
free text (spec 4.1). -/
def matchedKeywords (text : String) : List CrisisKeyword :=
  crisisKeywords.filter (fun k => decide (k.phrase.toList <:+: text.toList))

/-- Modelled from the spec: the risk-tier rule table of the missing backend
`CrisisDetector` (spec 4.1): any crisis-keyword match gives at least
MEDIUM regardless of score; a keyword match together with score ≤ 3 gives
HIGH; a self-harm (severe) match gives HIGH outright (spec 8 example);
score ≤ 2 alone gives at least MEDIUM. -/
def riskLevel (text : String) (score : Int) : RiskLevel :=
  if (matchedKeywords text).any (fun k => k.category == .selfHarm) then .HIGH
  else if matchedKeywords text ≠ [] ∧ score ≤ 3 then .HIGH
  else if matchedKeywords text ≠ [] then .MEDIUM
  else if score ≤ 2 then .MEDIUM
  else if score ≤ 4 then .LOW
  else .MINIMAL

/-- A localized crisis-helpline contact
(`CRISIS_RESOURCES` in `frontend/src/utils/constants.ts`). -/
structure CrisisResource where
  name : String
  phone : String
  description : String
  website : String
deriving DecidableEq, Repr

/-- The fixed list of localized (Indian) crisis-helpline contacts,
embedded from `CRISIS_RESOURCES` in `frontend/src/utils/constants.ts`. -/
def crisisResources : List CrisisResource :=
  [ ⟨"AASRA", "91-9820466726", "24/7 crisis helpline", "http://www.aasra.info/"⟩
  , ⟨"iCall", "9152987821", "Psychosocial helpline", "http://icallhelpline.org/"⟩
  , ⟨"Vandrevala Foundation", "9999666555", "24/7 mental health support",
      "https://www.vandrevalafoundation.com/"⟩
  , ⟨"Sumaitri", "011-23389090", "Delhi crisis helpline", "https://www.sumaitri.net/"⟩
  , ⟨"Sneha Foundation", "044-24640050", "Chennai crisis helpline", "http://snehaindia.org/"⟩ ]

/-- Modelled from the spec: the static per-tier guidance strings of the
missing backend `CrisisDetector` (spec 4.1: "`recommendations` is a
non-empty ordered list of static strings selected per tier"). -/
def recommendationsFor : RiskLevel → List String
  | .HIGH =>
      [ "Please reach out to a crisis helpline immediately"
      , "You are not alone - contact someone you trust right now" ]
  | .MEDIUM =>
      [ "Consider talking to a mental health professional"
      , "Try grounding techniques and reach out to a peer" ]
  | .LOW =>
      [ "Keep tracking your mood daily"
      , "Practice simple self-care activities" ]
  | .MINIMAL =>
      [ "Great job maintaining your wellbeing"
      , "Keep up your current routines" ]

/-- The derived, non-persisted risk assessment value (spec 3:
RiskAssessment). -/
structure RiskAssessment where
  risk_level : RiskLevel
  needs_intervention : Bool
  matched_keywords : List CrisisKeyword
  recommendations : List String
  crisis_resources : List CrisisResource
deriving DecidableEq, Repr

/-- Validation failures of the pipeline boundary (spec 7). -/
inductive ValidationError where
  | scoreOutOfRange
deriving DecidableEq, Repr

/-- Modelled from the spec: `assess(text, score)` of the missing backend
`CrisisDetector` (spec 4.1).  A score outside [1,10] is rejected with a
validation error, never clamped; otherwise the rule table decides the
tier, `needs_intervention` holds exactly for HIGH or for MEDIUM with
multiple keyword matches, recommendations are the per-tier static list,
and the fixed helpline list is attached exactly when the tier is HIGH. -/
def assess (text : String) (score : Int) : Except ValidationError RiskAssessment :=
  if score < 1 ∨ 10 < score then .error .scoreOutOfRange
  else
    .ok
      { risk_level := riskLevel text score
      , needs_intervention :=
          riskLevel text score == .HIGH
            || (riskLevel text score == .MEDIUM
                  && decide (2 ≤ (matchedKeywords text).length))
      , matched_keywords := matchedKeywords text
      , recommendations := recommendationsFor (riskLevel text score)
      , crisis_resources := if riskLevel text score == .HIGH then crisisResources else [] }

/-- A normalized mood record (spec 3: MoodEntry).  `user_commitment` is the
opaque anonymous identifier; `score` is the 1-10 mood score. -/
structure MoodEntry where
  id : Nat
  user_commitment : String
  score : Nat
  description : String
  timestamp : Nat
deriving DecidableEq, Repr

/-- The derived, non-persisted trend aggregate (spec 3: TrendSummary),
restricted to the fields the analysis pipeline guarantees. -/
structure TrendSummary where
  period_days : Nat
  entries_count : Nat
  average_mood : Rat
  direction : String
  slope : Rat
  volatility : String
deriving DecidableEq, Repr

/-- Modelled from the spec: the trend-direction slope threshold of the
missing backend `MoodAnalyzer` (spec 4.2; spec 9 treats the exact cutoff
as configuration). -/
def slopeThreshold : Rat := 1 / 10

/-- Modelled from the spec: the lower volatility cutoff on the standard
deviation of scores (spec 4.2, configuration per spec 9). -/
def volatilityLowCutoff : Rat := 1

/-- Modelled from the spec: the upper volatility cutoff on the standard
deviation of scores (spec 4.2, configuration per spec 9). -/
def volatilityHighCutoff : Rat := 2

/-- Modelled from the spec: `analyze(entries, period_days)` of the missing
backend `MoodAnalyzer` (spec 4.2).  Fewer than 2 entries is the degraded
case: direction "stable", slope reported as 0, volatility "unknown".
Otherwise the slope of the least-squares regression of score against entry
index decides the direction, and the variance of the scores against the
squared cutoffs decides the volatility bucket. -/
def analyze (entries : List MoodEntry) (period_days : Nat) : TrendSummary :=
  if entries.length < 2 then
    { period_days := period_days, entries_count := entries.length
    , average_mood :=
        if entries.length = 0 then 0
        else ((entries.map (fun e => (e.score : Rat))).sum) / (entries.length : Rat)
    , direction := "stable", slope := 0, volatility := "unknown" }
  else
    let n := entries.length
    let scores : List Rat := entries.map (fun e => (e.score : Rat))
    let avg : Rat := scores.sum / (n : Rat)
    let xs : List Rat := (List.range n).map (fun i => (i : Rat))
    let sumX := xs.sum
    let sumY := scores.sum
    let sumXY := ((xs.zip scores).map (fun p => p.1 * p.2)).sum
    let sumX2 := (xs.map (fun x => x * x)).sum
    let slope := ((n : Rat) * sumXY - sumX * sumY) / ((n : Rat) * sumX2 - sumX * sumX)
    let direction :=
      if slopeThreshold < slope then "improving"
      else if slope < -slopeThreshold then "declining"
      else "stable"
    let variance := ((scores.map (fun y => (y - avg) * (y - avg))).sum) / (n : Rat)
    let volatility :=
      if variance < volatilityLowCutoff * volatilityLowCutoff then "low"
      else if variance < volatilityHighCutoff * volatilityHighCutoff then "medium"
      else "high"
    { period_days := period_days, entries_count := n, average_mood := avg
    , direction := direction, slope := slope, volatility := volatility }

/-- The five fixed mood-distribution ranges of the community aggregate
(bucket labels of `Dashboard.generateRealCommunityChart`:
Excellent 8-10, Good 6-7, Moderate 4-5, Low 2-3, Crisis 1). -/
inductive MoodBucket where
  | crisis
  | low
  | moderate
  | good
  | excellent
deriving DecidableEq, Repr

/-- Modelled from the spec: the score-to-bucket assignment of the missing
backend community aggregator (spec 4.3), with the range boundaries shown
by the `Dashboard.tsx` chart labels. -/
def moodBucket (score : Nat) : MoodBucket :=
  if 8 ≤ score then .excellent
  else if 6 ≤ score then .good
  else if 4 ≤ score then .moderate
  else if 2 ≤ score then .low
  else .crisis

/-- Number of entries falling in one fixed bucket. -/
def bucketCount (entries : List MoodEntry) (b : MoodBucket) : Nat :=
  entries.countP (fun e => moodBucket e.score == b)

/-- The five bucket counts of the community mood distribution
(`mood_distribution` of `RealCommunityInsights` in `Dashboard.tsx`). -/
structure MoodDistribution where
  excellent : Nat
  good : Nat
  moderate : Nat
  low : Nat
  crisis : Nat
deriving DecidableEq, Repr

/-- The derived, non-persisted community aggregate (spec 3:
CommunityInsight): population-level counts, averages and rates only. -/
structure CommunityInsight where
  active_users : Nat
  total_entries : Nat
  average_mood : Rat
  mood_distribution : MoodDistribution
  crisis_rate : Rat
deriving DecidableEq, Repr

/-- Modelled from the spec: `aggregate(all_entries_in_window)` of the
missing backend community aggregator (spec 4.3): bucket every entry's
score into the 5 fixed ranges, report counts and rates, with
`crisis_rate = crisis_bucket_count / total_entries`, and only
population-level values in the output. -/
def aggregate (entries : List MoodEntry) : CommunityInsight :=
  { active_users := (entries.map (fun e => e.user_commitment)).dedup.length
  , total_entries := entries.length
  , average_mood :=
      if entries.length = 0 then 0
      else ((entries.map (fun e => (e.score : Rat))).sum) / (entries.length : Rat)
  , mood_distribution :=
      { excellent := bucketCount entries .excellent
      , good := bucketCount entries .good
      , moderate := bucketCount entries .moderate
      , low := bucketCount entries .low
      , crisis := bucketCount entries .crisis }
  , crisis_rate := (bucketCount entries .crisis : Rat) / (entries.length : Rat) }

/-- Renaming of the anonymous commitment identifier of one entry, used to
state that the community aggregate never depends on the identifiers
themselves. -/
def relabelEntry (f : String → String) (e : MoodEntry) : MoodEntry :=
  { e with user_commitment := f e.user_commitment }

/-- The `User` struct of `blockchain/contracts/UserRegistry.sol`;
`bytes32` values are modelled as natural numbers. -/
structure RegUser where
  commitment : Nat
  reputation : Nat
  joinDate : Nat
  active : Bool
deriving DecidableEq, Repr

/-- The zero value a Solidity `mapping(bytes32 => User)` yields for an
unset key. -/
def emptyRegUser : RegUser := ⟨0, 0, 0, false⟩

/-- Contract storage of `UserRegistry.sol`: the `users` mapping. -/
structure UserRegistryState where
  users : Nat → RegUser

/-- The `UserRegistered` event of `UserRegistry.sol`. -/
inductive RegistryEvent where
  | UserRegistered (commitment : Nat)
deriving DecidableEq, Repr

/-- `UserRegistry.registerUser` (UserRegistry.sol lines 17-21):
`require(!users[_commitment].active, "User already registered")`, then
store `User(_commitment, 100, block.timestamp, true)` and emit
`UserRegistered(_commitment)`.  A failed `require` reverts: modelled as
an error carrying the require message, with no successor state. -/
def registerUser (s : UserRegistryState) (blockTimestamp : Nat) (c : Nat) :
    Except String (UserRegistryState × List RegistryEvent) :=
  if (s.users c).active then .error "User already registered"
  else
    .ok ({ users := fun x => if x = c then ⟨c, 100, blockTimestamp, true⟩ else s.users x },
         [.UserRegistered c])

/-- Digits of JavaScript `Number.prototype.toString(16)` (lowercase). -/
def hexDigitChar (n : Nat) : Char :=
  ("0123456789abcdef".toList).getD n '0'

/-- `byte.toString(16)` as used on the bytes of a digest in
`CommitmentUtils.generateCommitment` (storage.ts lines 122-128): the
lowercase base-16 rendering of a value in [0, 256). -/
def byteToString16 (b : Nat) : String :=
  if b < 16 then String.mk [hexDigitChar b]
  else String.mk [hexDigitChar (b / 16), hexDigitChar (b % 16)]

/-- `.padStart(2, "0")` from `CommitmentUtils` (storage.ts): left-pad with
zeros up to length 2. -/
def padStart2 (s : String) : String :=
  if 2 ≤ s.length then s
  else String.mk (List.replicate (2 - s.length) '0') ++ s

/-- `CommitmentUtils.generateCommitment` (storage.ts lines 122-128):
`hashArray.map(b => b.toString(16).padStart(2, "0")).join("")`.  The
SHA-256 digest itself is produced by the browser WebCrypto API, external
to the repository, so the function is taken over its 32-byte digest. -/
def generateCommitment (digest : List Nat) : String :=
  String.join (digest.map (fun b => padStart2 (byteToString16 b)))

/-- One character of the case-insensitive class `[a-f0-9]` of the
`isValidCommitment` regex `/^[a-f0-9]{64}$/i` (storage.ts line 144). -/
def isHexCharCI (c : Char) : Bool :=
  (('a' ≤ c) && (c ≤ 'f')) || (('0' ≤ c) && (c ≤ '9')) || (('A' ≤ c) && (c ≤ 'F'))

/-- A lowercase hexadecimal character, as produced by `toString(16)`. -/
def isLowerHexChar (c : Char) : Bool :=
  (('0' ≤ c) && (c ≤ '9')) || (('a' ≤ c) && (c ≤ 'f'))

/-- `CommitmentUtils.isValidCommitment` (storage.ts lines 143-145):
the string matches `/^[a-f0-9]{64}$/i`, i.e. it has exactly 64
characters, all hexadecimal (either case). -/
def isValidCommitment (commitment : String) : Bool :=
  commitment.length == 64 && commitment.toList.all isHexCharCI

/-! ## Theorems -/

/-- The empty text matches no configured crisis keyword. -/
theorem matchedKeywords_nil : matchedKeywords "" = [] := by decide

/-- A configured keyword occurring in the text is among the matches. -/
theorem mem_matchedKeywords {k : CrisisKeyword} {text : String}
    (hk : k ∈ crisisKeywords) (hsub : k.phrase.toList <:+: text.toList) :
    k ∈ matchedKeywords text :=
  List.mem_filter.mpr ⟨hk, decide_eq_true hsub⟩

/-- On an in-range score, `assess` succeeds with the rule-table result. -/
theorem assess_eq_ok (text : String) (score : Int) (h1 : 1 ≤ score) (h2 : score ≤ 10) :
    assess text score = .ok
      { risk_level := riskLevel text score
      , needs_intervention :=
          riskLevel text score == .HIGH
            || (riskLevel text score == .MEDIUM
                  && decide (2 ≤ (matchedKeywords text).length))
      , matched_keywords := matchedKeywords text
      , recommendations := recommendationsFor (riskLevel text score)
      , crisis_resources := if riskLevel text score == .HIGH then crisisResources else [] } := by
  unfold assess
  rw [if_neg (by omega)]

/-- C1: with an in-range score, `assess` reports the rule-table tier; any
configured keyword occurring in the text forces at least MEDIUM, a keyword
together with score ≤ 3 forces HIGH, and score ≤ 2 alone forces at least
MEDIUM. -/
theorem riskLevel_rule_table (text : String) (score : Int) (k : CrisisKeyword)
    (h1 : 1 ≤ score) (h2 : score ≤ 10) :
    (assess text score).toOption.map (fun a => a.risk_level) = some (riskLevel text score)
    ∧ (k ∈ crisisKeywords → k.phrase.toList <:+: text.toList →
        RiskLevel.MEDIUM.rank ≤ (riskLevel text score).rank
        ∧ (score ≤ 3 → riskLevel text score = .HIGH))
    ∧ (score ≤ 2 → RiskLevel.MEDIUM.rank ≤ (riskLevel text score).rank) := by
  refine ⟨?_, ?_, ?_⟩
  · rw [assess_eq_ok text score h1 h2]
    rfl
  · intro hk hsub
    have hne : matchedKeywords text ≠ [] :=
      List.ne_nil_of_mem (mem_matchedKeywords hk hsub)
    unfold riskLevel
    by_cases hsev : (matchedKeywords text).any (fun k => k.category == .selfHarm) = true
    · rw [if_pos hsev]
      exact ⟨by simp [RiskLevel.rank], fun _ => rfl⟩
    · rw [if_neg hsev]
      by_cases h3 : score ≤ 3
      · rw [if_pos ⟨hne, h3⟩]
        exact ⟨by simp [RiskLevel.rank], fun _ => rfl⟩
      · rw [if_neg (by tauto), if_pos hne]
        exact ⟨le_refl _, fun hc => absurd hc h3⟩
  · intro hs2
    unfold riskLevel
    by_cases hsev : (matchedKeywords text).any (fun k => k.category == .selfHarm) = true
    · rw [if_pos hsev]
      simp [RiskLevel.rank]
    · rw [if_neg hsev]
      by_cases hne : matchedKeywords text = []
      · rw [if_neg (by tauto), if_neg (by tauto), if_pos hs2]
      · have hne' : matchedKeywords text ≠ [] := hne
        rw [if_pos ⟨hne', by omega⟩]
        simp [RiskLevel.rank]

/-- Witness for C1: the keyword "hopeless" in the text at score 2. -/
theorem riskLevel_rule_table_witness :
    (assess "feeling hopeless" 2).toOption.map (fun a => a.risk_level)
      = some (riskLevel "feeling hopeless" 2)
    ∧ ((CrisisKeyword.mk "hopeless" .hopelessness) ∈ crisisKeywords →
        (CrisisKeyword.mk "hopeless" .hopelessness).phrase.toList <:+: "feeling hopeless".toList →
        RiskLevel.MEDIUM.rank ≤ (riskLevel "feeling hopeless" 2).rank
        ∧ ((2 : Int) ≤ 3 → riskLevel "feeling hopeless" 2 = .HIGH))
    ∧ ((2 : Int) ≤ 2 → RiskLevel.MEDIUM.rank ≤ (riskLevel "feeling hopeless" 2).rank) :=
  riskLevel_rule_table "feeling hopeless" 2 ⟨"hopeless", .hopelessness⟩ (by decide) (by decide)

/-- C2: on empty text `needs_intervention` can only hold at score ≤ 2
(vacuously, as it never holds there), and in general `needs_intervention`
holds exactly for HIGH, or MEDIUM with at least two keyword matches. -/
theorem needs_intervention_rule (text : String) (score : Int) (a : RiskAssessment)
    (h1 : 1 ≤ score) (h2 : score ≤ 10) (ha : assess text score = .ok a) :
    (text = "" → a.needs_intervention = true → score ≤ 2)
    ∧ (a.needs_intervention = true
        ↔ (a.risk_level = .HIGH
            ∨ (a.risk_level = .MEDIUM ∧ 2 ≤ a.matched_keywords.length))) := by
  rw [assess_eq_ok text score h1 h2] at ha
  have hrec := Except.ok.inj ha
  subst hrec
  constructor
  · intro ht hni
    subst ht
    have hrl : riskLevel "" score
        = (if score ≤ 2 then .MEDIUM else if score ≤ 4 then .LOW else .MINIMAL) := by
      unfold riskLevel
      rw [matchedKeywords_nil]
      simp
    simp only [hrl, matchedKeywords_nil] at hni
    split_ifs at hni <;> simp_all
  · simp [Bool.or_eq_true, Bool.and_eq_true, beq_iff_eq, decide_eq_true_eq]

/-- The assessment `assess` produces for empty text at score 5. -/
def assessEmptyFive : RiskAssessment :=
  { risk_level := .MINIMAL
  , needs_intervention := false
  , matched_keywords := []
  , recommendations := recommendationsFor .MINIMAL
  , crisis_resources := [] }

/-- Witness for C2: empty text at score 5. -/
theorem needs_intervention_rule_witness :
    ("" = "" → assessEmptyFive.needs_intervention = true → (5 : Int) ≤ 2)
    ∧ (assessEmptyFive.needs_intervention = true
        ↔ (assessEmptyFive.risk_level = .HIGH
            ∨ (assessEmptyFive.risk_level = .MEDIUM
                ∧ 2 ≤ assessEmptyFive.matched_keywords.length))) :=
  needs_intervention_rule "" 5 assessEmptyFive (by decide) (by decide) rfl

/-- C3: a HIGH assessment always carries the fixed non-empty localized
helpline list, and the example text "I want to end it all" at score 4
yields HIGH, needs_intervention, and non-empty crisis resources. -/
theorem crisis_resources_on_high (text : String) (score : Int) (a : RiskAssessment)
    (ha : assess text score = .ok a) :
    (a.risk_level = .HIGH → a.crisis_resources = crisisResources ∧ a.crisis_resources ≠ [])
    ∧ (assess "I want to end it all" 4).toOption.map
        (fun r => (r.risk_level, r.needs_intervention, r.crisis_resources.isEmpty))
      = some (.HIGH, true, false) := by
  constructor
  · intro hh
    unfold assess at ha
    by_cases hr : score < 1 ∨ 10 < score
    · rw [if_pos hr] at ha
      cases ha
    · rw [if_neg hr] at ha
      have hrec := Except.ok.inj ha
      subst hrec
      simp only at hh
      refine ⟨by simp [hh], ?_⟩
      simp only [hh]
      simp [crisisResources]
  · rfl

/-- The assessment `assess` produces for "I want to end it all" at score 4. -/
def assessEndItAll : RiskAssessment :=
  { risk_level := .HIGH
  , needs_intervention := true
  , matched_keywords := [⟨"end it all", .selfHarm⟩]
  , recommendations := recommendationsFor .HIGH
  , crisis_resources := crisisResources }

/-- Witness for C3: the spec example input. -/
theorem crisis_resources_on_high_witness :
    (assessEndItAll.risk_level = .HIGH →
        assessEndItAll.crisis_resources = crisisResources
        ∧ assessEndItAll.crisis_resources ≠ [])
    ∧ (assess "I want to end it all" 4).toOption.map
        (fun r => (r.risk_level, r.needs_intervention, r.crisis_resources.isEmpty))
      = some (.HIGH, true, false) :=
  crisis_resources_on_high "I want to end it all" 4 assessEndItAll rfl

/-- C7: for a fixed text the risk tier is antitone in the score, and for a
fixed score adding crisis language to the text never lowers the tier; so a
low score combined with crisis language sits at or above either signal
alone. -/
theorem riskLevel_monotone (text : String) (s s' : Int)
    (h1 : 1 ≤ s) (h2 : s ≤ s') (h3 : s' ≤ 10) :
    (riskLevel text s').rank ≤ (riskLevel text s).rank
    ∧ (riskLevel "" s).rank ≤ (riskLevel text s).rank := by
  have h0 : riskLevel "" s
      = (if s ≤ 2 then .MEDIUM else if s ≤ 4 then .LOW else .MINIMAL) := by
    unfold riskLevel
    rw [matchedKeywords_nil]
    simp
  constructor
  · unfold riskLevel
    split_ifs <;> simp_all [RiskLevel.rank] <;> omega
  · rw [h0]
    unfold riskLevel
    split_ifs <;> simp_all [RiskLevel.rank]

/-- Witness for C7: the keyword "worthless" with scores 2 and 7. -/
theorem riskLevel_monotone_witness :
    (riskLevel "I feel worthless" 7).rank ≤ (riskLevel "I feel worthless" 2).rank
    ∧ (riskLevel "" 2).rank ≤ (riskLevel "I feel worthless" 2).rank :=
  riskLevel_monotone "I feel worthless" 2 7 (by decide) (by decide) (by decide)

/-- C4: for every score outside [1,10] `assess` fails with a validation
error, and `assess` succeeds exactly on scores in [1,10], so no result is
ever computed from a clamped score. -/
theorem assess_rejects_out_of_range (text : String) (score : Int) :
    (score < 1 ∨ 10 < score → assess text score = .error .scoreOutOfRange)
    ∧ ((assess text score).isOk = true ↔ 1 ≤ score ∧ score ≤ 10) := by
  unfold assess
  constructor
  · intro h
    rw [if_pos h]
  · by_cases h : score < 1 ∨ 10 < score
    · rw [if_pos h]
      simp only [Except.isOk]
      constructor
      · intro hh
        cases hh
      · intro hh
        omega
    · rw [if_neg h]
      simp only [Except.isOk]
      constructor
      · intro _
        omega
      · intro _
        rfl

/-- Witness for C4: score 11 is rejected, score 0 yields no result. -/
theorem assess_rejects_out_of_range_witness :
    assess "" 11 = .error .scoreOutOfRange
    ∧ ((assess "" 0).isOk = true ↔ (1 : Int) ≤ 0 ∧ (0 : Int) ≤ 10) :=
  ⟨(assess_rejects_out_of_range "" 11).1 (by decide),
   (assess_rejects_out_of_range "" 0).2⟩

/-- C5: on fewer than 2 entries (including the empty list) `analyze`
returns the degraded-but-valid result: direction "stable", slope 0,
volatility "unknown", and the true entry count. -/
theorem analyze_few_entries_degraded (entries : List MoodEntry) (period_days : Nat)
    (h : entries.length < 2) :
    (analyze entries period_days).direction = "stable"
    ∧ (analyze entries period_days).slope = 0
    ∧ (analyze entries period_days).volatility = "unknown"
    ∧ (analyze entries period_days).entries_count = entries.length := by
  unfold analyze
  rw [if_pos h]
  exact ⟨rfl, rfl, rfl, rfl⟩

/-- Witness for C5: the empty entry list over a 30-day window. -/
theorem analyze_few_entries_degraded_witness :
    (analyze [] 30).direction = "stable"
    ∧ (analyze [] 30).slope = 0
    ∧ (analyze [] 30).volatility = "unknown"
    ∧ (analyze [] 30).entries_count = List.length ([] : List MoodEntry) :=
  analyze_few_entries_degraded [] 30 (by decide)

/-- C6: the five fixed bucket counts of the community aggregate always sum
to exactly `total_entries`, and `crisis_rate` equals the crisis bucket
count divided by `total_entries`. -/
theorem aggregate_buckets_partition (entries : List MoodEntry) :
    (aggregate entries).mood_distribution.crisis
      + (aggregate entries).mood_distribution.low
      + (aggregate entries).mood_distribution.moderate
      + (aggregate entries).mood_distribution.good
      + (aggregate entries).mood_distribution.excellent
      = (aggregate entries).total_entries
    ∧ (aggregate entries).crisis_rate
      = ((aggregate entries).mood_distribution.crisis : Rat)
          / ((aggregate entries).total_entries : Rat) := by
  constructor
  · show bucketCount entries .crisis + bucketCount entries .low
      + bucketCount entries .moderate + bucketCount entries .good
      + bucketCount entries .excellent = entries.length
    induction entries with
    | nil => rfl
    | cons e t ih =>
      simp only [bucketCount, List.countP_cons, List.length_cons] at *
      cases hb : moodBucket e.score <;> simp [hb] <;> omega
  · rfl

/-- C9: `registerUser` reverts with "User already registered" on an active
commitment; on a fresh commitment it succeeds, stores the commitment with
reputation 100, the block timestamp as join date and active set, changes
no other mapping slot, and emits exactly `UserRegistered`. -/
theorem registerUser_spec (s : UserRegistryState) (ts c : Nat) :
    ((s.users c).active = true → registerUser s ts c = .error "User already registered")
    ∧ ((s.users c).active = false → (registerUser s ts c).isOk = true)
    ∧ (∀ s' events, registerUser s ts c = .ok (s', events) →
        (s.users c).active = false
        ∧ events = [.UserRegistered c]
        ∧ s'.users c = ⟨c, 100, ts, true⟩
        ∧ ∀ c', c' ≠ c → s'.users c' = s.users c') := by
  unfold registerUser
  refine ⟨?_, ?_, ?_⟩
  · intro h
    rw [if_pos h]
  · intro h
    rw [if_neg (by simp [h])]
    rfl
  · intro s' events hok
    by_cases h : (s.users c).active = true
    · rw [if_pos h] at hok
      cases hok
    · rw [if_neg h] at hok
      have hp := Except.ok.inj hok
      have hs : s' = ⟨fun x => if x = c then ⟨c, 100, ts, true⟩ else s.users x⟩ :=
        (congrArg Prod.fst hp).symm
      have he : events = [RegistryEvent.UserRegistered c] :=
        (congrArg Prod.snd hp).symm
      subst hs
      refine ⟨by simpa using h, he, ?_, ?_⟩
      · simp
      · intro c' hc
        simp [hc]

/-- A registry state in which commitment 7 is already active. -/
def testRegistryActive : UserRegistryState := ⟨fun _ => ⟨7, 100, 5, true⟩⟩

/-- A registry state with no registered user. -/
def testRegistryFresh : UserRegistryState := ⟨fun _ => emptyRegUser⟩

/-- The registry state after registering commitment 42 at timestamp 1000. -/
def testRegistryAfter : UserRegistryState :=
  ⟨fun x => if x = 42 then ⟨42, 100, 1000, true⟩ else emptyRegUser⟩

/-- Witness for C9: duplicate registration of commitment 7 reverts; fresh
registration of commitment 42 succeeds, stores the expected record and
leaves slot 43 untouched. -/
theorem registerUser_spec_witness :
    registerUser testRegistryActive 9 7 = .error "User already registered"
    ∧ (registerUser testRegistryFresh 1000 42).isOk = true
    ∧ testRegistryAfter.users 42 = ⟨42, 100, 1000, true⟩
    ∧ testRegistryAfter.users 43 = testRegistryFresh.users 43 :=
  ⟨(registerUser_spec testRegistryActive 9 7).1 rfl,
   (registerUser_spec testRegistryFresh 1000 42).2.1 rfl,
   ((registerUser_spec testRegistryFresh 1000 42).2.2 testRegistryAfter
      [.UserRegistered 42] rfl).2.2.1,
   ((registerUser_spec testRegistryFresh 1000 42).2.2 testRegistryAfter
      [.UserRegistered 42] rfl).2.2.2 43 (by decide)⟩

/-- Deduplicated length is preserved under an injective relabelling. -/
theorem dedup_length_map {α β : Type} [DecidableEq α] [DecidableEq β]
    (f : α → β) (hf : Function.Injective f) (l : List α) :
    ((l.map f).dedup).length = l.dedup.length := by
  induction l with
  | nil => rfl
  | cons a t ih =>
    by_cases h : a ∈ t
    · rw [List.map_cons, List.dedup_cons_of_mem (List.mem_map_of_mem f h),
        List.dedup_cons_of_mem h, ih]
    · have h' : f a ∉ t.map f := by
        intro hm
        obtain ⟨b, hb, hfb⟩ := List.mem_map.mp hm
        exact h (hf hfb ▸ hb)
      rw [List.map_cons, List.dedup_cons_of_not_mem h', List.dedup_cons_of_not_mem h]
      simp [ih]

/-- C8: the community aggregate is invariant under any injective renaming
of the anonymous commitment identifiers, so its output carries only
population-level counts, averages and rates and no per-user identifier. -/
theorem aggregate_anonymized (f : String → String) (hf : Function.Injective f)
    (entries : List MoodEntry) :
    aggregate (entries.map (relabelEntry f)) = aggregate entries := by
  have hlen : (entries.map (relabelEntry f)).length = entries.length := by
    simp
  have hscore : (entries.map (relabelEntry f)).map (fun e => (e.score : Rat))
      = entries.map (fun e => (e.score : Rat)) := by
    rw [List.map_map]
    rfl
  have hbucket : ∀ b, bucketCount (entries.map (relabelEntry f)) b = bucketCount entries b := by
    intro b
    unfold bucketCount
    rw [List.countP_map]
    rfl
  have hcommit : (entries.map (relabelEntry f)).map (fun e => e.user_commitment)
      = (entries.map (fun e => e.user_commitment)).map f := by
    rw [List.map_map, List.map_map]
    rfl
  unfold aggregate
  rw [hlen, hcommit, dedup_length_map f hf, hscore, hbucket, hbucket, hbucket,
    hbucket, hbucket]

/-- Witness for C8: a two-user entry set under the identity renaming. -/
theorem aggregate_anonymized_witness :
    aggregate ([⟨1, "a1b2", 2, "rough day", 10⟩,
                ⟨2, "c3d4", 8, "good day", 20⟩].map (relabelEntry id))
      = aggregate [⟨1, "a1b2", 2, "rough day", 10⟩, ⟨2, "c3d4", 8, "good day", 20⟩] :=
  aggregate_anonymized id (fun _ _ h => h) _

set_option maxRecDepth 4096 in
/-- Each encoded digest byte is two lowercase hexadecimal characters. -/
theorem byteHex_ok : ∀ b : Fin 256,
    (padStart2 (byteToString16 b.val)).length = 2
    ∧ (padStart2 (byteToString16 b.val)).data.all isLowerHexChar = true
    ∧ (padStart2 (byteToString16 b.val)).data.all isHexCharCI = true := by decide

/-- The characters of a joined list of strings are the flattened blocks. -/
theorem foldl_append_data (l : List String) (acc : String) :
    (l.foldl (fun r s => r ++ s) acc).data = acc.data ++ (l.map String.data).flatten := by
  induction l generalizing acc with
  | nil => simp
  | cons s t ih =>
    simp only [List.foldl_cons, List.map_cons, List.flatten_cons, ih,
      String.data_append, List.append_assoc]

/-- `String.join` concatenates the character data of its blocks. -/
theorem join_data (l : List String) : (String.join l).data = (l.map String.data).flatten := by
  have h := foldl_append_data l ""
  simpa [String.join] using h

/-- Summing a constant-2 map counts twice the length. -/
theorem sum_map_const_two {α : Type} (g : α → Nat) (l : List α)
    (h : ∀ x ∈ l, g x = 2) : (l.map g).sum = 2 * l.length := by
  induction l with
  | nil => rfl
  | cons a t ih =>
    simp only [List.map_cons, List.sum_cons, List.length_cons]
    rw [h a (List.mem_cons_self a t), ih (fun x hx => h x (List.mem_cons_of_mem a hx))]
    ring

/-- C10: the hex encoding of any 32-byte digest is a 64-character
lowercase hexadecimal string, and `isValidCommitment` accepts it, so a
freshly generated commitment always passes the login-side format check. -/
theorem generateCommitment_valid (digest : List Nat)
    (hlen : digest.length = 32) (hb : ∀ b ∈ digest, b < 256) :
    (generateCommitment digest).length = 64
    ∧ (generateCommitment digest).toList.all isLowerHexChar = true
    ∧ isValidCommitment (generateCommitment digest) = true := by
  have hdata : (generateCommitment digest).data
      = ((digest.map (fun b => padStart2 (byteToString16 b))).map String.data).flatten := by
    unfold generateCommitment
    exact join_data _
  have hblock : ∀ s ∈ (digest.map (fun b => padStart2 (byteToString16 b))).map String.data,
      s.length = 2 ∧ s.all isLowerHexChar = true ∧ s.all isHexCharCI = true := by
    intro s hs
    obtain ⟨str, hstr, rfl⟩ := List.mem_map.mp hs
    obtain ⟨b, hbmem, rfl⟩ := List.mem_map.mp hstr
    exact byteHex_ok ⟨b, hb b hbmem⟩
  have hlength : (generateCommitment digest).length = 64 := by
    show (generateCommitment digest).data.length = 64
    rw [hdata, List.length_flatten, sum_map_const_two _ _ (fun s hs => (hblock s hs).1)]
    simp [hlen]
  have hall : ∀ c ∈ (generateCommitment digest).data,
      isLowerHexChar c = true ∧ isHexCharCI c = true := by
    intro c hc
    rw [hdata] at hc
    obtain ⟨blk, hblk, hcblk⟩ := List.mem_flatten.mp hc
    have h2 := hblock blk hblk
    exact ⟨List.all_eq_true.mp h2.2.1 c hcblk, List.all_eq_true.mp h2.2.2 c hcblk⟩
  refine ⟨hlength, ?_, ?_⟩
  · rw [List.all_eq_true]
    exact fun c hc => (hall c hc).1
  · unfold isValidCommitment
    rw [Bool.and_eq_true]
    constructor
    · simp [hlength]
    · rw [List.all_eq_true]
      exact fun c hc => (hall c hc).2

/-- Witness for C10: the all-255 digest encodes to 64 letters f. -/
theorem generateCommitment_valid_witness :
    (generateCommitment (List.replicate 32 255)).length = 64
    ∧ (generateCommitment (List.replicate 32 255)).toList.all isLowerHexChar = true
    ∧ isValidCommitment (generateCommitment (List.replicate 32 255)) = true :=
  generateCommitment_valid (List.replicate 32 255) (by decide) (by decide)

end MentalHealth
